import Mathlib

/-!
# Verification of the authentication / brute-force-defense core

A shallow embedding of the repository's authentication core (`auth.py` and the
login / `/auth/me` handlers of `main.py`) together with proofs of the spec's
claims about it.

Modelling conventions:
* Instants are `Nat` seconds (`datetime.utcnow()` becomes an explicit `now`
  parameter; `timedelta(minutes = m)` becomes `m * 60`).
* The SQLAlchemy session is an explicit `DB` state threaded through every
  operation; `db.add` + `db.commit` is list append, `db.rollback` after a
  caught insert error leaves the state unchanged.
* bcrypt is modelled symbolically: a hash verifies exactly for the password it
  was derived from (salting is irrelevant to the control flow being verified).
* JWT signing is modelled symbolically: a token carries its payload and the
  key it was signed with; `jwt.decode` checks the key and the `exp` claim.
* Python optional strings (`client_ip`, `user_agent`) are `Option String`;
  Python truthiness `if not client_ip` is `none` or `some ""`.
* A `storeFails` flag on `DB` injects a persistence-layer error into the
  `FailedLoginAttempt` insert of `log_failed_attempt`, modelling the
  `try/except` around the ledger write. Its `db.rollback()` rolls back the
  whole session transaction, so it also reverts the pending
  `login_attempts` increment made earlier in `authenticate_user`'s
  wrong-password branch; the embedding makes that increment durable only
  when the ledger commit succeeds.
-/

/-- Configuration constants of `auth.py`. -/
def MAX_LOGIN_ATTEMPTS : Nat := 5

/-- `COOLDOWN_MINUTES` of `auth.py` (user-level lockout duration, minutes). -/
def COOLDOWN_MINUTES : Nat := 15

/-- `MAX_IP_ATTEMPTS` of `auth.py` (source-address failure threshold). -/
def MAX_IP_ATTEMPTS : Nat := 10

/-- `IP_COOLDOWN_MINUTES` of `auth.py` (source-address window, minutes). -/
def IP_COOLDOWN_MINUTES : Nat := 30

/-- `MAX_FAILED_ATTEMPTS_PER_IP` of `auth.py` (hourly heuristic threshold). -/
def MAX_FAILED_ATTEMPTS_PER_IP : Nat := 15

/-- `SECRET_KEY` of `auth.py`. -/
def SECRET_KEY : String := "koronka_iot_secret_key_2024"

/-- `ACCESS_TOKEN_EXPIRE_MINUTES` of `auth.py`. -/
def ACCESS_TOKEN_EXPIRE_MINUTES : Nat := 30

/-- A row of the `users` table (`models.py`): the fields the auth core reads
and mutates. `id` stands in for the uuid primary key. -/
structure User where
  id : Nat
  username : String
  password_hash : String
  login_attempts : Nat
  cooldown_until : Option Nat
  created_at : Nat
  updated_at : Nat
  deriving DecidableEq, Repr

/-- A row of the `failed_login_attempts` table (`models.py`). -/
structure FailedLoginAttempt where
  username : String
  ip_address : Option String
  user_agent : Option String
  attempt_time : Nat
  failure_reason : String
  user_id : Option Nat
  is_suspicious : Bool
  deriving DecidableEq, Repr

/-- A row of the `security_events` table (`models.py`). -/
structure SecurityEvent where
  event_type : String
  severity : String
  ip_address : Option String
  user_agent : Option String
  username : String
  details : String
  timestamp : Nat
  deriving DecidableEq, Repr

/-- A row of the `user_logs` table (`models.py`). -/
structure UserLog where
  user_id : Nat
  product_id : Option Nat
  action : String
  ip_address : Option String
  user_agent : Option String
  deriving DecidableEq, Repr

/-- The persistent store seen through the SQLAlchemy session: the four tables
the auth core touches, plus the `storeFails` fault-injection flag standing for
"the next `FailedLoginAttempt` insert raises at commit time". -/
structure DB where
  users : List User
  failed_attempts : List FailedLoginAttempt
  security_events : List SecurityEvent
  user_logs : List UserLog
  storeFails : Bool
  deriving DecidableEq, Repr

/-- Python `str.lower()` (kernel-computable form of `String.toLower`). -/
def pyLower (s : String) : String :=
  String.mk (s.data.map Char.toLower)

/-- Is the first character list an initial run of the second? -/
def leadsWith : List Char → List Char → Bool
  | [], _ => true
  | _ :: _, [] => false
  | a :: as, b :: bs => a == b && leadsWith as bs

/-- Does `pat` occur as a contiguous run inside the second list? -/
def hasSub (pat : List Char) : List Char → Bool
  | [] => leadsWith pat []
  | c :: rest => leadsWith pat (c :: rest) || hasSub pat rest

/-- Python `pat in s` on strings. -/
def containsStr (s pat : String) : Bool :=
  hasSub pat.data s.data

/-- Symbolic bcrypt (`AuthManager.get_password_hash`). -/
def get_password_hash (password : String) : String :=
  "bcrypt$" ++ password

/-- `AuthManager.verify_password`: symbolic `bcrypt.checkpw` — the hash
verifies exactly for the password it was derived from. -/
def verify_password (plain_password hashed_password : String) : Bool :=
  hashed_password == get_password_hash plain_password

/-- Python truthiness of the optional `client_ip` / `user_agent` strings:
`None` and `""` are falsy. -/
def strFalsy : Option String → Bool
  | none => true
  | some s => s == ""

/-- A source address the tracking code acts on: not `None`, not `""` and not
the literal `"unknown"` (the guards of `check_ip_cooldown` and
`increment_ip_failed_attempts`). -/
def usableIp : Option String → Bool
  | none => false
  | some s => !(s == "" || s == "unknown")

/-- The filter of the `recent_failures` query in
`AuthManager.check_ip_cooldown`: entries of one source address whose
`attempt_time >= now - IP_COOLDOWN_MINUTES` (in `Nat` seconds the cutoff is
written additively, avoiding truncated subtraction). -/
def ipQualifying (ledger : List FailedLoginAttempt) (ip : String) (now : Nat) :
    List FailedLoginAttempt :=
  ledger.filter fun a =>
    a.ip_address == some ip && decide (now ≤ a.attempt_time + IP_COOLDOWN_MINUTES * 60)

/-- The part of a ledger row the cooldown computation reads: source address
and timestamp. -/
def ipTimeProj (a : FailedLoginAttempt) : Option String × Nat :=
  (a.ip_address, a.attempt_time)

/-- Timestamp of the most recent entry of a query result
(`recent_failures[0].attempt_time` after `order_by(attempt_time.desc())`). -/
def latestTime (l : List FailedLoginAttempt) : Nat :=
  l.foldr (fun a m => max a.attempt_time m) 0

/-- All ledger entries recorded for a source address, regardless of age. -/
def ipTotal (ledger : List FailedLoginAttempt) (ip : Option String) : Nat :=
  match ip with
  | none => 0
  | some s => (ledger.filter fun a => a.ip_address == some s).length

/-- The dict returned by `AuthManager.check_ip_cooldown`. -/
structure IpStatus where
  is_blocked : Bool
  remaining_time : Nat
  failed_attempts : Nat
  cooldown_until : Option Nat
  deriving DecidableEq, Repr

/-- Core of `AuthManager.check_ip_cooldown`, as a function of the ledger. -/
def ipCooldownStatus (ledger : List FailedLoginAttempt) (client_ip : Option String)
    (now : Nat) : IpStatus :=
  if strFalsy client_ip || (client_ip == some "unknown") then
    ⟨false, 0, 0, none⟩
  else
    match client_ip with
    | none => ⟨false, 0, 0, none⟩
    | some ip =>
      let recent := ipQualifying ledger ip now
      if MAX_IP_ATTEMPTS ≤ recent.length then
        let cooldown_until := latestTime recent + IP_COOLDOWN_MINUTES * 60
        if now < cooldown_until then
          ⟨true, cooldown_until - now, recent.length, some cooldown_until⟩
        else
          ⟨false, 0, recent.length, none⟩
      else
        ⟨false, 0, recent.length, none⟩

/-- `AuthManager.check_ip_cooldown`. -/
def check_ip_cooldown (db : DB) (client_ip : Option String) (now : Nat) : IpStatus :=
  ipCooldownStatus db.failed_attempts client_ip now

/-- `AuthManager.get_ip_status` (delegates to `check_ip_cooldown`). -/
def get_ip_status (db : DB) (client_ip : Option String) (now : Nat) : IpStatus :=
  check_ip_cooldown db client_ip now

/-- `AuthManager._analyze_suspicious_attempt` (pure heuristic; the underscore
prefix of the Python name is dropped). -/
def analyze_suspicious_attempt (user_agent : Option String) (_client_ip : Option String)
    (failure_reason : String) : Bool :=
  let shortAgent := strFalsy user_agent ||
    (match user_agent with
     | some ua => decide (ua.length < 10)
     | none => true)
  let botAgent := !strFalsy user_agent &&
    (match user_agent with
     | some ua =>
       containsStr (pyLower ua) "bot" || containsStr (pyLower ua) "crawler" ||
       containsStr (pyLower ua) "spider" || containsStr (pyLower ua) "scraper"
     | none => false)
  let badReason := failure_reason == "INVALID_USERNAME" ||
    failure_reason == "IP_COOLDOWN_BLOCKED"
  shortAgent || botAgent || badReason

/-- `AuthManager._is_suspicious_activity` (underscore prefix dropped): the
hourly per-address frequency heuristic plus the short-agent heuristic. -/
def is_suspicious_activity (db : DB) (client_ip : Option String)
    (user_agent : Option String) (now : Nat) : Bool :=
  if strFalsy client_ip then
    false
  else
    match client_ip with
    | none => false
    | some ip =>
      let ip_attempts := (db.failed_attempts.filter fun a =>
        a.ip_address == some ip && decide (now ≤ a.attempt_time + 3600)).length
      if MAX_FAILED_ATTEMPTS_PER_IP ≤ ip_attempts then
        true
      else
        match user_agent with
        | some ua => !(ua == "") && decide (ua.length < 10)
        | none => false

/-- `AuthManager.log_failed_attempt`. The `db.add`/`db.commit` pair appends a
`FailedLoginAttempt` (and, when a `user_id` is supplied, a `UserLog`); the
surrounding `try/except` catches a persistence error — modelled by
`db.storeFails` — and rolls back, leaving the durable state unchanged and
raising nothing to the caller. The rollback covers the whole session
transaction: a pending account mutation of the caller is reverted with it,
which `authenticate_user`'s wrong-password branch models by committing the
counter increment only when this write succeeds. -/
def log_failed_attempt (db : DB) (username : String) (client_ip : Option String)
    (user_agent : Option String) (failure_reason : String) (user_id : Option Nat)
    (now : Nat) : DB :=
  if db.storeFails then
    db
  else
    let is_suspicious := analyze_suspicious_attempt user_agent client_ip failure_reason
    let attempt : FailedLoginAttempt :=
      ⟨pyLower username, client_ip, user_agent, now, failure_reason, user_id, is_suspicious⟩
    let db1 := { db with failed_attempts := db.failed_attempts ++ [attempt] }
    match user_id with
    | some uid =>
      { db1 with user_logs := db1.user_logs ++
          [⟨uid, none, "LOGIN_FAILED_" ++ failure_reason, client_ip, user_agent⟩] }
    | none => db1

/-- `AuthManager.log_user_action`. -/
def log_user_action (db : DB) (user_id : Nat) (product_id : Option Nat)
    (action : String) (client_ip : Option String) (user_agent : Option String) : DB :=
  { db with user_logs := db.user_logs ++ [⟨user_id, product_id, action, client_ip, user_agent⟩] }

/-- `AuthManager._log_security_event` (underscore prefix dropped). -/
def log_security_event (db : DB) (event_type severity : String)
    (ip_address : Option String) (user_agent : Option String)
    (username details : String) (now : Nat) : DB :=
  { db with security_events := db.security_events ++
      [⟨event_type, severity, ip_address, user_agent, username, details, now⟩] }

/-- `AuthManager.increment_ip_failed_attempts`: guard on unusable addresses,
then ledger write, then re-check of the tally and possible
`IP_COOLDOWN_TRIGGERED` event. -/
def increment_ip_failed_attempts (db : DB) (client_ip : Option String)
    (username : String) (failure_reason : String) (user_agent : Option String)
    (now : Nat) : DB :=
  if strFalsy client_ip || (client_ip == some "unknown") then
    db
  else
    let db1 := log_failed_attempt db username client_ip user_agent failure_reason none now
    let ip_status := check_ip_cooldown db1 client_ip now
    if MAX_IP_ATTEMPTS ≤ ip_status.failed_attempts then
      log_security_event db1 "IP_COOLDOWN_TRIGGERED" "HIGH" client_ip user_agent username
        ("IP triggered cooldown after " ++ toString ip_status.failed_attempts ++
          " failed attempts") now
    else
      db1

/-- `AuthManager.get_user_by_username`: case-insensitive lookup
(`username.lower()` against the stored, lowercased usernames). -/
def get_user_by_username (db : DB) (username : String) : Option User :=
  db.users.find? fun u => u.username == pyLower username

/-- Replace the row of a user in the store (the effect of mutating a loaded
ORM object and committing). -/
def updateUser (db : DB) (u : User) : DB :=
  { db with users := db.users.map fun v => if v.id == u.id then u else v }

/-- `AuthManager.reset_login_attempts`. -/
def reset_login_attempts (db : DB) (user : User) (now : Nat) : DB × User :=
  let user1 := { user with login_attempts := 0, cooldown_until := none, updated_at := now }
  (updateUser db user1, user1)

/-- The observable result of `AuthManager.authenticate_user`: the raised
HTTP 429 (`Blocked remaining`), the `None` return (`NoUser`), or the
authenticated `User`. -/
inductive AuthOutcome where
  | Blocked : Nat → AuthOutcome
  | NoUser : AuthOutcome
  | Success : User → AuthOutcome
  deriving DecidableEq, Repr

/-- Does the outcome denote the raised 429 of the source-cooldown branch? -/
def isBlockedOutcome : AuthOutcome → Bool
  | AuthOutcome.Blocked _ => true
  | _ => false

/-- Is the outcome a successful authentication? -/
def isSuccessOutcome : AuthOutcome → Bool
  | AuthOutcome.Success _ => true
  | _ => false

/-- `AuthManager.authenticate_user`, steps 1–6 in source order:
source-cooldown check, suspicious-activity heuristic, account lookup,
account-lockout check, password verification, success path. -/
def authenticate_user (db : DB) (username password : String)
    (client_ip : Option String) (user_agent : Option String) (now : Nat) :
    AuthOutcome × DB :=
  let ip_status := check_ip_cooldown db client_ip now
  if ip_status.is_blocked then
    let db1 := log_failed_attempt db username client_ip user_agent "IP_COOLDOWN_BLOCKED" none now
    (AuthOutcome.Blocked ip_status.remaining_time, db1)
  else
    let db1 :=
      if is_suspicious_activity db client_ip user_agent now then
        log_security_event db "SUSPICIOUS_ACTIVITY" "HIGH" client_ip user_agent username
          "Suspicious login pattern detected" now
      else db
    match get_user_by_username db1 username with
    | none =>
      (AuthOutcome.NoUser,
        increment_ip_failed_attempts db1 client_ip username "INVALID_USERNAME" user_agent now)
    | some user =>
      let locked :=
        match user.cooldown_until with
        | some cu => decide (now < cu)
        | none => false
      if locked then
        (AuthOutcome.NoUser,
          increment_ip_failed_attempts db1 client_ip username "ACCOUNT_LOCKED" user_agent now)
      else if !verify_password password user.password_hash then
        -- `user.login_attempts += 1` is a pending session mutation: it becomes
        -- durable at the `db.commit()` inside `log_failed_attempt`, in the same
        -- transaction as the ledger insert. When that insert raises, the
        -- `db.rollback()` reverts the increment too and the refreshed row shows
        -- the original counter, which the threshold check then reads.
        let user1 := { user with login_attempts := user.login_attempts + 1 }
        let db2 := if db1.storeFails then db1 else updateUser db1 user1
        let userEff := if db1.storeFails then user else user1
        let db3 :=
          increment_ip_failed_attempts db2 client_ip username "INVALID_PASSWORD" user_agent now
        let db4 :=
          if MAX_LOGIN_ATTEMPTS ≤ userEff.login_attempts then
            let user2 := { userEff with
              cooldown_until := some (now + COOLDOWN_MINUTES * 60) }
            let dbA := updateUser db3 user2
            let dbB := log_user_action dbA user2.id none "ACCOUNT_LOCKED" client_ip user_agent
            log_security_event dbB "BRUTE_FORCE_ATTEMPT" "HIGH" client_ip user_agent username
              ("Account locked after " ++ toString MAX_LOGIN_ATTEMPTS ++ " failed attempts") now
          else db3
        (AuthOutcome.NoUser, db4)
      else
        let (db2, user1) := reset_login_attempts db1 user now
        let db3 := log_user_action db2 user1.id none "LOGIN_SUCCESS" client_ip user_agent
        (AuthOutcome.Success user1, db3)

/-- A signed JWT, symbolically: the payload fields the program uses (`sub`,
`exp`) plus the key the token was signed with (standing for the signature). -/
structure Jwt where
  sub : Option String
  exp : Nat
  key : String
  deriving DecidableEq, Repr

/-- `AuthManager.create_access_token`: payload `{sub: username}` plus an `exp`
of `now + expires_delta` (default `ACCESS_TOKEN_EXPIRE_MINUTES`), signed with
`SECRET_KEY`. -/
def create_access_token (sub : String) (now : Nat) (expires_delta : Option Nat) : Jwt :=
  let expire :=
    match expires_delta with
    | some d => now + d
    | none => now + ACCESS_TOKEN_EXPIRE_MINUTES * 60
  ⟨some sub, expire, SECRET_KEY⟩

/-- Result of `jwt.decode`: the payload, or the raised `ExpiredSignature` /
bad-signature error. -/
inductive DecodeResult where
  | ok : Option String → DecodeResult
  | expired : DecodeResult
  | badSignature : DecodeResult
  deriving DecidableEq, Repr

/-- Symbolic `jwt.decode(token, key, algorithms=[ALGORITHM])`: rejects a
token signed with a different key, rejects a token whose `exp` has passed,
otherwise yields the payload. -/
def jwt_decode (token : Jwt) (key : String) (now : Nat) : DecodeResult :=
  if token.key != key then
    DecodeResult.badSignature
  else if token.exp ≤ now then
    DecodeResult.expired
  else
    DecodeResult.ok token.sub

/-- Result of `AuthManager.get_current_user`: the resolved user or the raised
401 `credentials_exception`. -/
inductive TokenUserResult where
  | user : User → TokenUserResult
  | unauthorized : TokenUserResult
  deriving DecidableEq, Repr

/-- `AuthManager.get_current_user`: decode the token, read `sub`, look the
user up; every failure raises the 401 `credentials_exception`. -/
def get_current_user (db : DB) (token : Jwt) (now : Nat) : TokenUserResult :=
  match jwt_decode token SECRET_KEY now with
  | DecodeResult.ok (some username) =>
    match get_user_by_username db username with
    | some u => TokenUserResult.user u
    | none => TokenUserResult.unauthorized
  | _ => TokenUserResult.unauthorized

/-- The observable HTTP response of the `/auth/login` handler: an
`HTTPException` (status, `detail` body, optional `Retry-After` header) or the
200 `Token` body. -/
inductive LoginResponse where
  | err : Nat → String → Option Nat → LoginResponse
  | ok : Jwt → Nat → String → Nat → LoginResponse
  deriving DecidableEq, Repr

/-- HTTP status code of a login response. -/
def loginStatus : LoginResponse → Nat
  | LoginResponse.err s _ _ => s
  | LoginResponse.ok _ _ _ _ => 200

/-- The `if not user:` arm of the `/auth/login` handler, factored out as a
function of the post-call ledger: re-reads the source status
(`auth_manager.get_ip_status`) and builds either the 429 cooldown response or
the generic 401. -/
def loginFailureResponse (ledger : List FailedLoginAttempt) (client_ip : Option String)
    (now : Nat) : LoginResponse :=
  let ip_status := ipCooldownStatus ledger client_ip now
  if ip_status.is_blocked then
    LoginResponse.err 429
      ("IP address dalam cooldown. Tunggu " ++ toString ip_status.remaining_time ++ " detik.")
      (some ip_status.remaining_time)
  else
    let attempts_left : Int := 3 - (ip_status.failed_attempts : Int)
    let detail :=
      if attempts_left ≤ 0 then
        "Terlalu banyak percobaan login gagal"
      else
        "Username atau password salah. " ++ toString attempts_left ++ " percobaan tersisa."
    LoginResponse.err 401 detail none

/-- The `/auth/login` handler of `main.py` (`login`): calls
`authenticate_user`; on a `None` result re-reads the source status for the
error message (the `loginFailureResponse` arm); on success re-checks the
user-level cooldown and issues a token. The 429 raised inside
`authenticate_user` passes through unchanged (`except HTTPException: raise`). -/
def login (db : DB) (username password : String) (client_ip : Option String)
    (user_agent : Option String) (now : Nat) : LoginResponse × DB :=
  match authenticate_user db username password client_ip user_agent now with
  | (AuthOutcome.Blocked remaining, db1) =>
    (LoginResponse.err 429
      ("IP address dalam cooldown. Tunggu " ++ toString remaining ++ " detik.")
      (some remaining), db1)
  | (AuthOutcome.NoUser, db1) =>
    (loginFailureResponse db1.failed_attempts client_ip now, db1)
  | (AuthOutcome.Success user, db1) =>
    let stillLocked :=
      match user.cooldown_until with
      | some cu => decide (now < cu)
      | none => false
    if stillLocked then
      let remaining :=
        match user.cooldown_until with
        | some cu => cu - now
        | none => 0
      (LoginResponse.err 429
        ("Akun terkunci. Tunggu " ++ toString remaining ++ " detik.")
        (some remaining), db1)
    else
      let token := create_access_token user.username now (some (30 * 60))
      (LoginResponse.ok token user.id user.username user.created_at, db1)

/-- A Python call that either returns or raises some exception. -/
inductive PyResult (α : Type) where
  | ok : α → PyResult α
  | exn : PyResult α
  deriving DecidableEq, Repr

/-- `auth_manager.verify_token(token)` as called by the `/auth/me`, logout
and device handlers of `main.py`. The `AuthManager` class of `auth.py`
defines no `verify_token` method, so in Python this attribute access raises
`AttributeError` on every call; the call is therefore modelled as always
raising. -/
def verify_token_call (_token : String) : PyResult (Option String) :=
  PyResult.exn

/-- The observable response of the `/auth/me` handler. -/
structure MeResponse where
  status : Nat
  detail : String
  deriving DecidableEq, Repr

/-- The `/auth/me` handler of `main.py` (route function `get_current_user`,
modelled under a distinct name): header parsing, then
`auth_manager.verify_token` inside `try/except Exception`, whose failure is
converted to the 401 `credentials_exception`; only then the store lookup. -/
def auth_me_route (db : DB) (auth_header : Option String) : MeResponse :=
  let headerBad :=
    strFalsy auth_header ||
      (match auth_header with
       | some h => !leadsWith "Bearer ".data h.data
       | none => true)
  if headerBad then
    ⟨401, "Not authenticated"⟩
  else
    let token :=
      match auth_header with
      | some h => String.mk (h.data.drop 7)
      | none => ""
    match verify_token_call token with
    | PyResult.ok (some username) =>
      match get_user_by_username db username with
      | some u => ⟨200, u.username⟩
      | none => ⟨401, "Could not validate credentials"⟩
    | PyResult.ok none => ⟨401, "Could not validate credentials"⟩
    | PyResult.exn => ⟨401, "Could not validate credentials"⟩

/-- Iterated calls of `authenticate_user` with one username/password from one
source, at the listed instants (threading the store through). -/
def wrongCalls (db : DB) (username password : String) (client_ip : Option String)
    (user_agent : Option String) : List Nat → DB
  | [] => db
  | t :: ts =>
    wrongCalls (authenticate_user db username password client_ip user_agent t).2
      username password client_ip user_agent ts

/-- Number of `BRUTE_FORCE_ATTEMPT` events (the spec's `BRUTE_FORCE_ACCOUNT`)
in an event list. -/
def bruteForceCount (events : List SecurityEvent) : Nat :=
  (events.filter fun e => e.event_type == "BRUTE_FORCE_ATTEMPT").length

/-- Fixture: ten failed attempts from the address `1.2.3.4` at second 100. -/
def tenAttempts : List FailedLoginAttempt :=
  List.replicate 10 ⟨"alice", some "1.2.3.4", none, 100, "INVALID_PASSWORD", none, true⟩

/-- Fixture: a store whose ledger already blocks `1.2.3.4` at second 200,
holding an active account `alice` with password `pw`. -/
def blockedDb : DB :=
  ⟨[⟨1, "alice", get_password_hash "pw", 0, none, 0, 0⟩], tenAttempts, [], [], false⟩

/-- Fixture: a store whose `FailedLoginAttempt` insert raises, holding the
active account `alice` with password `pw` and an empty ledger. -/
def failingStoreDb : DB :=
  ⟨[⟨1, "alice", get_password_hash "pw", 0, none, 0, 0⟩], [], [], [], true⟩

/-- Fixture: nine failed attempts from `7.7.7.7` at second 100. -/
def nineAttempts : List FailedLoginAttempt :=
  List.replicate 9 ⟨"alice", some "7.7.7.7", none, 100, "INVALID_PASSWORD", none, true⟩

/-- Fixture: `alice` one wrong password short of lockout, her source address
one failure short of the source threshold. -/
def nearLockDb : DB :=
  ⟨[⟨1, "alice", get_password_hash "pw", 4, none, 0, 0⟩], nineAttempts, [], [], false⟩

/-- Fixture: `alice` locked at count 5 with an expiry at second 1000, long
past at second 2000. -/
def expiredLockDb : DB :=
  ⟨[⟨1, "alice", get_password_hash "pw", 5, some 1000, 0, 0⟩], [], [], [], false⟩

-- Projection lemmas: which tables each store operation touches.

@[simp]
theorem log_security_event_failed_attempts (db : DB) (et sv : String)
    (ip ua : Option String) (un dt : String) (now : Nat) :
    (log_security_event db et sv ip ua un dt now).failed_attempts = db.failed_attempts := rfl

@[simp]
theorem log_security_event_users (db : DB) (et sv : String)
    (ip ua : Option String) (un dt : String) (now : Nat) :
    (log_security_event db et sv ip ua un dt now).users = db.users := rfl

@[simp]
theorem log_security_event_storeFails (db : DB) (et sv : String)
    (ip ua : Option String) (un dt : String) (now : Nat) :
    (log_security_event db et sv ip ua un dt now).storeFails = db.storeFails := rfl

@[simp]
theorem log_security_event_events (db : DB) (et sv : String)
    (ip ua : Option String) (un dt : String) (now : Nat) :
    (log_security_event db et sv ip ua un dt now).security_events =
      db.security_events ++ [⟨et, sv, ip, ua, un, dt, now⟩] := rfl

@[simp]
theorem log_user_action_failed_attempts (db : DB) (uid : Nat) (pid : Option Nat)
    (ac : String) (ip ua : Option String) :
    (log_user_action db uid pid ac ip ua).failed_attempts = db.failed_attempts := rfl

@[simp]
theorem log_user_action_users (db : DB) (uid : Nat) (pid : Option Nat)
    (ac : String) (ip ua : Option String) :
    (log_user_action db uid pid ac ip ua).users = db.users := rfl

@[simp]
theorem log_user_action_events (db : DB) (uid : Nat) (pid : Option Nat)
    (ac : String) (ip ua : Option String) :
    (log_user_action db uid pid ac ip ua).security_events = db.security_events := rfl

@[simp]
theorem log_user_action_storeFails (db : DB) (uid : Nat) (pid : Option Nat)
    (ac : String) (ip ua : Option String) :
    (log_user_action db uid pid ac ip ua).storeFails = db.storeFails := rfl

@[simp]
theorem updateUser_failed_attempts (db : DB) (u : User) :
    (updateUser db u).failed_attempts = db.failed_attempts := rfl

@[simp]
theorem updateUser_events (db : DB) (u : User) :
    (updateUser db u).security_events = db.security_events := rfl

@[simp]
theorem updateUser_storeFails (db : DB) (u : User) :
    (updateUser db u).storeFails = db.storeFails := rfl

@[simp]
theorem check_ip_cooldown_ignores_users (db : DB) (us : List User)
    (ip : Option String) (now : Nat) :
    check_ip_cooldown { db with users := us } ip now = check_ip_cooldown db ip now := rfl

-- Sanity checks of the embedding on concrete inputs.

example :
    check_ip_cooldown ⟨[], [], [], [], false⟩ (some "1.2.3.4") 100 =
      ⟨false, 0, 0, none⟩ := by decide

example :
    verify_password "pw" (get_password_hash "pw") = true := by decide

example :
    (authenticate_user ⟨[⟨1, "alice", get_password_hash "pw", 0, none, 0, 0⟩], [], [], [], false⟩
      "alice" "pw" (some "1.2.3.4") (some "Mozilla/5.0 Browser") 50).1 =
      AuthOutcome.Success ⟨1, "alice", get_password_hash "pw", 0, none, 0, 50⟩ := by decide

example :
    (authenticate_user ⟨[⟨1, "alice", get_password_hash "pw", 0, none, 0, 0⟩], [], [], [], false⟩
      "alice" "xx" (some "1.2.3.4") (some "Mozilla/5.0 Browser") 50).2.users =
      [⟨1, "alice", get_password_hash "pw", 1, none, 0, 0⟩] := by decide

-- ### Claim theorems

/-- C10: every request to `GET /auth/me` returns HTTP 401, whatever the
presented bearer token is: the handler calls `auth_manager.verify_token`,
which `AuthManager` does not define, and the resulting exception is caught
and converted to the credentials-invalid response. -/
theorem auth_me_always_401 (db : DB) (auth_header : Option String) :
    (auth_me_route db auth_header).status = 401 := by
  unfold auth_me_route verify_token_call
  dsimp only
  split <;> rfl

/-- Helper: with a source address the guards reject (`None`, `""` or
`"unknown"`), the cooldown check reports clean, the tracking is a no-op, and
an authenticate call can neither be source-blocked nor grow the ledger. -/
theorem auth_guarded_ip_no_tracking (db : DB) (uname pw : String) (ua : Option String)
    (now : Nat) (ip : Option String)
    (hguard : (strFalsy ip || (ip == some "unknown")) = true) :
    check_ip_cooldown db ip now = ⟨false, 0, 0, none⟩ ∧
    (∀ (d : DB) (reason : String),
      increment_ip_failed_attempts d ip uname reason ua now = d) ∧
    isBlockedOutcome (authenticate_user db uname pw ip ua now).1 = false ∧
    (authenticate_user db uname pw ip ua now).2.failed_attempts = db.failed_attempts := by
  have hchk : ∀ d : DB, check_ip_cooldown d ip now = ⟨false, 0, 0, none⟩ := by
    intro d
    unfold check_ip_cooldown ipCooldownStatus
    rw [hguard]
    simp
  have hinc : ∀ (d : DB) (reason : String),
      increment_ip_failed_attempts d ip uname reason ua now = d := by
    intro d reason
    unfold increment_ip_failed_attempts
    rw [hguard]
    simp
  refine ⟨hchk db, hinc, ?_⟩
  unfold authenticate_user
  rw [hchk db]
  dsimp only
  split
  next h => exact absurd h (by simp)
  next =>
    repeat' split
    all_goals simp_all [hinc, isBlockedOutcome, reset_login_attempts]

/-- C9: a call whose source address is `None` or `"unknown"` sees a clean
source-cooldown status (not blocked, zero attempts), its failed-attempt
tracking writes nothing, and such a request is never source-blocked and
leaves no `FailedLoginAttempt` ledger entry on any branch. -/
theorem unknown_source_never_tracked (db : DB) (uname pw reason : String)
    (ua : Option String) (now : Nat) :
    check_ip_cooldown db none now = ⟨false, 0, 0, none⟩ ∧
    check_ip_cooldown db (some "unknown") now = ⟨false, 0, 0, none⟩ ∧
    increment_ip_failed_attempts db none uname reason ua now = db ∧
    increment_ip_failed_attempts db (some "unknown") uname reason ua now = db ∧
    isBlockedOutcome (authenticate_user db uname pw none ua now).1 = false ∧
    (authenticate_user db uname pw none ua now).2.failed_attempts = db.failed_attempts ∧
    isBlockedOutcome (authenticate_user db uname pw (some "unknown") ua now).1 = false ∧
    (authenticate_user db uname pw (some "unknown") ua now).2.failed_attempts =
      db.failed_attempts := by
  have h1 := auth_guarded_ip_no_tracking db uname pw ua now none (by decide)
  have h2 := auth_guarded_ip_no_tracking db uname pw ua now (some "unknown") (by decide)
  exact ⟨h1.1, h2.1, h1.2.1 db reason, h2.2.1 db reason,
    h1.2.2.1, h1.2.2.2, h2.2.2.1, h2.2.2.2⟩

/-- C8: token round-trip. A token issued for `u` with a ttl validates to
subject `u` at any instant before the ttl elapses and is rejected as expired
at any instant after; decoding succeeds only with the right signing key and
an unexpired `exp`, and `get_current_user` rejects an expired token. -/
theorem token_round_trip :
    (∀ (u : String) (ttl t0 t : Nat), t < t0 + ttl →
      jwt_decode (create_access_token u t0 (some ttl)) SECRET_KEY t =
        DecodeResult.ok (some u)) ∧
    (∀ (u : String) (ttl t0 t : Nat), t0 + ttl < t →
      jwt_decode (create_access_token u t0 (some ttl)) SECRET_KEY t =
        DecodeResult.expired) ∧
    (∀ (tok : Jwt) (key : String) (t : Nat) (s : Option String),
      jwt_decode tok key t = DecodeResult.ok s → tok.key = key ∧ t < tok.exp) ∧
    (∀ (db : DB) (u : String) (ttl t0 t : Nat), t0 + ttl < t →
      get_current_user db (create_access_token u t0 (some ttl)) t =
        TokenUserResult.unauthorized) := by
  refine ⟨?_, ?_, ?_, ?_⟩
  · intro u ttl t0 t h
    unfold jwt_decode create_access_token
    simp [Nat.not_le.mpr h]
  · intro u ttl t0 t h
    unfold jwt_decode create_access_token
    simp [Nat.le_of_lt h]
  · intro tok key t s h
    unfold jwt_decode at h
    by_cases hk : tok.key = key
    · by_cases he : tok.exp ≤ t
      · simp [hk, he] at h
      · exact ⟨hk, Nat.lt_of_not_le he⟩
    · simp [hk] at h
  · intro db u ttl t0 t h
    unfold get_current_user jwt_decode create_access_token
    simp [Nat.le_of_lt h]

/-- Witness for C8 at concrete instants: issue at 0 with ttl 60, validate at
30 (subject returned) and at 100 (expired); a successful decode pins the key
and the unexpired expiry. -/
theorem token_round_trip_witness :
    ((30 : Nat) < 0 + 60 ∧
      jwt_decode (create_access_token "bob" 0 (some 60)) SECRET_KEY 30 =
        DecodeResult.ok (some "bob")) ∧
    ((0 : Nat) + 60 < 100 ∧
      jwt_decode (create_access_token "bob" 0 (some 60)) SECRET_KEY 100 =
        DecodeResult.expired) ∧
    ((Jwt.mk (some "bob") 60 SECRET_KEY).key = SECRET_KEY ∧ 30 < 60) ∧
    get_current_user ⟨[], [], [], [], false⟩ (create_access_token "bob" 0 (some 60)) 100 =
      TokenUserResult.unauthorized :=
  ⟨⟨by decide, token_round_trip.1 "bob" 60 0 30 (by decide)⟩,
   ⟨by decide, token_round_trip.2.1 "bob" 60 0 100 (by decide)⟩,
   token_round_trip.2.2.1 ⟨some "bob", 60, SECRET_KEY⟩ SECRET_KEY 30 (some "bob") (by decide),
   token_round_trip.2.2.2 ⟨[], [], [], [], false⟩ "bob" 60 0 100 (by decide)⟩

/-- The windowed tally never exceeds the total recorded for the address. -/
theorem ipQualifying_length_le (L : List FailedLoginAttempt) (ip : String) (now : Nat) :
    (ipQualifying L ip now).length ≤ ipTotal L (some ip) := by
  unfold ipQualifying ipTotal
  refine List.Sublist.length_le (List.monotone_filter_right L ?_)
  intro a ha
  simp only [Bool.and_eq_true] at ha
  exact ha.1

/-- C7: for a usable source address the block decision is a pure function of
the ledger and the clock — blocked exactly when the trailing-window tally
reaches `MAX_IP_ATTEMPTS` *and* the latest qualifying attempt plus the window
is still in the future; when blocked, `cooldown_until` is that instant and
`remaining_time` is its distance from now; an address with zero recorded
attempts is never blocked. -/
theorem ip_cooldown_block_characterization (db : DB) (ip : String) (now : Nat)
    (h : usableIp (some ip) = true) :
    ((check_ip_cooldown db (some ip) now).is_blocked = true ↔
      (MAX_IP_ATTEMPTS ≤ (ipQualifying db.failed_attempts ip now).length ∧
        now < latestTime (ipQualifying db.failed_attempts ip now) +
          IP_COOLDOWN_MINUTES * 60)) ∧
    ((check_ip_cooldown db (some ip) now).is_blocked = true →
      (check_ip_cooldown db (some ip) now).remaining_time =
        latestTime (ipQualifying db.failed_attempts ip now) + IP_COOLDOWN_MINUTES * 60 - now ∧
      (check_ip_cooldown db (some ip) now).cooldown_until =
        some (latestTime (ipQualifying db.failed_attempts ip now) + IP_COOLDOWN_MINUTES * 60) ∧
      (check_ip_cooldown db (some ip) now).failed_attempts =
        (ipQualifying db.failed_attempts ip now).length) ∧
    (ipTotal db.failed_attempts (some ip) = 0 →
      (check_ip_cooldown db (some ip) now).is_blocked = false) := by
  have hg : (strFalsy (some ip) || ((some ip : Option String) == some "unknown")) = false := by
    simp only [usableIp] at h
    simp only [strFalsy]
    cases h1 : (ip == "") <;> cases h2 : (ip == "unknown") <;> simp_all
  unfold check_ip_cooldown ipCooldownStatus
  rw [hg]
  simp only [Bool.false_eq_true, if_false]
  by_cases hlen : MAX_IP_ATTEMPTS ≤ (ipQualifying db.failed_attempts ip now).length
  · by_cases htime : now < latestTime (ipQualifying db.failed_attempts ip now) +
        IP_COOLDOWN_MINUTES * 60
    · refine ⟨by simp [hlen, htime], by simp [hlen, htime], ?_⟩
      intro h0
      have := ipQualifying_length_le db.failed_attempts ip now
      rw [h0] at this
      simp [MAX_IP_ATTEMPTS] at hlen
      omega
    · refine ⟨by simp [hlen, htime], by simp [hlen, htime], by simp [hlen, htime]⟩
  · refine ⟨by simp [hlen], by simp [hlen], by simp [hlen]⟩

/-- Witness for C7: a ledger holding ten attempts from one address at second
100 is blocked at second 200, until second 1900. -/
theorem ip_cooldown_block_characterization_witness :
    usableIp (some "1.2.3.4") = true ∧
    (((check_ip_cooldown
        ⟨[], List.replicate 10 ⟨"alice", some "1.2.3.4", none, 100, "INVALID_PASSWORD", none, true⟩,
          [], [], false⟩ (some "1.2.3.4") 200).is_blocked = true ↔
      (MAX_IP_ATTEMPTS ≤ (ipQualifying
          (List.replicate 10 ⟨"alice", some "1.2.3.4", none, 100, "INVALID_PASSWORD", none, true⟩)
          "1.2.3.4" 200).length ∧
        200 < latestTime (ipQualifying
          (List.replicate 10 ⟨"alice", some "1.2.3.4", none, 100, "INVALID_PASSWORD", none, true⟩)
          "1.2.3.4" 200) + IP_COOLDOWN_MINUTES * 60)) ∧
    ((check_ip_cooldown
        ⟨[], List.replicate 10 ⟨"alice", some "1.2.3.4", none, 100, "INVALID_PASSWORD", none, true⟩,
          [], [], false⟩ (some "1.2.3.4") 200).is_blocked = true →
      (check_ip_cooldown
        ⟨[], List.replicate 10 ⟨"alice", some "1.2.3.4", none, 100, "INVALID_PASSWORD", none, true⟩,
          [], [], false⟩ (some "1.2.3.4") 200).remaining_time =
        latestTime (ipQualifying
          (List.replicate 10 ⟨"alice", some "1.2.3.4", none, 100, "INVALID_PASSWORD", none, true⟩)
          "1.2.3.4" 200) + IP_COOLDOWN_MINUTES * 60 - 200 ∧
      (check_ip_cooldown
        ⟨[], List.replicate 10 ⟨"alice", some "1.2.3.4", none, 100, "INVALID_PASSWORD", none, true⟩,
          [], [], false⟩ (some "1.2.3.4") 200).cooldown_until =
        some (latestTime (ipQualifying
          (List.replicate 10 ⟨"alice", some "1.2.3.4", none, 100, "INVALID_PASSWORD", none, true⟩)
          "1.2.3.4" 200) + IP_COOLDOWN_MINUTES * 60) ∧
      (check_ip_cooldown
        ⟨[], List.replicate 10 ⟨"alice", some "1.2.3.4", none, 100, "INVALID_PASSWORD", none, true⟩,
          [], [], false⟩ (some "1.2.3.4") 200).failed_attempts =
        (ipQualifying
          (List.replicate 10 ⟨"alice", some "1.2.3.4", none, 100, "INVALID_PASSWORD", none, true⟩)
          "1.2.3.4" 200).length) ∧
    (ipTotal (List.replicate 10 ⟨"alice", some "1.2.3.4", none, 100, "INVALID_PASSWORD", none, true⟩)
        (some "1.2.3.4") = 0 →
      (check_ip_cooldown
        ⟨[], List.replicate 10 ⟨"alice", some "1.2.3.4", none, 100, "INVALID_PASSWORD", none, true⟩,
          [], [], false⟩ (some "1.2.3.4") 200).is_blocked = false)) :=
  ⟨by decide,
   ip_cooldown_block_characterization
     ⟨[], List.replicate 10 ⟨"alice", some "1.2.3.4", none, 100, "INVALID_PASSWORD", none, true⟩,
       [], [], false⟩ "1.2.3.4" 200 (by decide)⟩

/-- Counterexample to C7 as stated: ten attempts from one address recorded at
second 0 still lie inside the trailing 30-minute window at second 1800 (the
query filter is `attempt_time >= now - window`, inclusive), so the claimed
"blocked iff windowed count ≥ MAX_SRC_ATTEMPTS" predicts blocked — but
`cooldown_until = 0 + 1800` is not strictly later than now, and the code
reports the address as not blocked. -/
theorem ip_cooldown_boundary_counterexample :
    (ipQualifying
      (List.replicate 10 ⟨"alice", some "5.5.5.5", none, 0, "INVALID_PASSWORD", none, true⟩)
      "5.5.5.5" 1800).length = 10 ∧
    MAX_IP_ATTEMPTS ≤ 10 ∧
    (check_ip_cooldown
      ⟨[], List.replicate 10 ⟨"alice", some "5.5.5.5", none, 0, "INVALID_PASSWORD", none, true⟩,
        [], [], false⟩ (some "5.5.5.5") 1800).is_blocked = false := by
  decide

/-- C1: a call whose source address is currently blocked is rejected as
`Blocked` (HTTP 429 with `Retry-After` of the remaining seconds) before any
account lookup or password comparison: the outcome is the same for every
users table, username and password, including correct credentials of an
existing, unlocked account. -/
theorem source_block_precedes_account (db : DB) (u p : String) (ip ua : Option String)
    (now : Nat) (hb : (check_ip_cooldown db ip now).is_blocked = true) :
    (authenticate_user db u p ip ua now).1 =
      AuthOutcome.Blocked ((check_ip_cooldown db ip now).remaining_time) ∧
    (login db u p ip ua now).1 =
      LoginResponse.err 429
        ("IP address dalam cooldown. Tunggu " ++
          toString ((check_ip_cooldown db ip now).remaining_time) ++ " detik.")
        (some ((check_ip_cooldown db ip now).remaining_time)) ∧
    (∀ (users2 : List User) (u2 p2 : String),
      (authenticate_user { db with users := users2 } u2 p2 ip ua now).1 =
        AuthOutcome.Blocked ((check_ip_cooldown db ip now).remaining_time)) := by
  have hauth : ∀ (d : DB) (u2 p2 : String), d.failed_attempts = db.failed_attempts →
      authenticate_user d u2 p2 ip ua now =
        (AuthOutcome.Blocked ((check_ip_cooldown db ip now).remaining_time),
          log_failed_attempt d u2 ip ua "IP_COOLDOWN_BLOCKED" none now) := by
    intro d u2 p2 hd
    have hchk : check_ip_cooldown d ip now = check_ip_cooldown db ip now := by
      unfold check_ip_cooldown
      rw [hd]
    unfold authenticate_user
    rw [hchk]
    simp [hb]
  refine ⟨?_, ?_, ?_⟩
  · rw [hauth db u p rfl]
  · unfold login
    rw [hauth db u p rfl]
  · intro users2 u2 p2
    rw [hauth { db with users := users2 } u2 p2 rfl]

/-- Witness for C1: with ten recent failures from `1.2.3.4`, a login with
alice's correct password is still rejected as blocked with 1700 seconds
remaining. -/
theorem source_block_precedes_account_witness :
    (check_ip_cooldown blockedDb (some "1.2.3.4") 200).is_blocked = true ∧
    (authenticate_user blockedDb "alice" "pw" (some "1.2.3.4")
        (some "Mozilla/5.0 Browser") 200).1 =
      AuthOutcome.Blocked ((check_ip_cooldown blockedDb (some "1.2.3.4") 200).remaining_time) ∧
    (login blockedDb "alice" "pw" (some "1.2.3.4") (some "Mozilla/5.0 Browser") 200).1 =
      LoginResponse.err 429
        ("IP address dalam cooldown. Tunggu " ++
          toString ((check_ip_cooldown blockedDb (some "1.2.3.4") 200).remaining_time) ++
          " detik.")
        (some ((check_ip_cooldown blockedDb (some "1.2.3.4") 200).remaining_time)) :=
  ⟨by decide,
   (source_block_precedes_account blockedDb "alice" "pw" (some "1.2.3.4")
     (some "Mozilla/5.0 Browser") 200 (by decide)).1,
   (source_block_precedes_account blockedDb "alice" "pw" (some "1.2.3.4")
     (some "Mozilla/5.0 Browser") 200 (by decide)).2.1⟩

/-- When the ledger insert raises, `log_failed_attempt` rolls back and
returns normally with the state unchanged. -/
theorem log_failed_attempt_storeFails (d : DB) (u : String) (ip ua : Option String)
    (r : String) (uid : Option Nat) (now : Nat) (hd : d.storeFails = true) :
    log_failed_attempt d u ip ua r uid now = d := by
  unfold log_failed_attempt
  simp [hd]

/-- When the ledger insert raises, the tracking step leaves the ledger
unchanged (it may still emit a security event from the stale tally). -/
theorem increment_ip_ledger_storeFails (d : DB) (ip : Option String) (u r : String)
    (ua : Option String) (now : Nat) (hd : d.storeFails = true) :
    (increment_ip_failed_attempts d ip u r ua now).failed_attempts =
      d.failed_attempts := by
  unfold increment_ip_failed_attempts
  rw [log_failed_attempt_storeFails d u ip ua r none now hd]
  split
  · rfl
  · dsimp only
    split <;> simp

/-- Counterexample to C4 as stated: with a store whose `FailedLoginAttempt`
insert raises, a wrong-password call still completes normally — it returns
the ordinary invalid-credentials outcome instead of failing, while the
attempt is left unlogged and the rolled-back transaction also reverts the
pending counter increment (alice stays at 0). The `except` clause of
`log_failed_attempt` swallows the error. -/
theorem ledger_write_failure_swallowed_counterexample :
    failingStoreDb.storeFails = true ∧
    (authenticate_user failingStoreDb "alice" "xx" (some "9.9.9.9")
        (some "Mozilla/5.0 Browser") 0).1 = AuthOutcome.NoUser ∧
    (authenticate_user failingStoreDb "alice" "xx" (some "9.9.9.9")
        (some "Mozilla/5.0 Browser") 0).2.failed_attempts = [] ∧
    (authenticate_user failingStoreDb "alice" "xx" (some "9.9.9.9")
        (some "Mozilla/5.0 Browser") 0).2.users =
      [⟨1, "alice", get_password_hash "pw", 0, none, 0, 0⟩] := by
  decide


/-- The cooldown check ignores the fault-injection flag. -/
theorem check_ip_cooldown_set_storeFails (db : DB) (b : Bool) (ip : Option String)
    (now : Nat) :
    check_ip_cooldown { db with storeFails := b } ip now = check_ip_cooldown db ip now := rfl

/-- The suspicious-activity heuristic ignores the fault-injection flag. -/
theorem is_suspicious_set_storeFails (db : DB) (b : Bool) (ip ua : Option String)
    (now : Nat) :
    is_suspicious_activity { db with storeFails := b } ip ua now =
      is_suspicious_activity db ip ua now := rfl

/-- Account lookup ignores the fault-injection flag. -/
theorem get_user_set_storeFails (db : DB) (b : Bool) (u : String) :
    get_user_by_username { db with storeFails := b } u = get_user_by_username db u := rfl

/-- Account lookup is unaffected by an event append. -/
theorem get_user_log_security_event (db : DB) (et sv : String) (ip ua : Option String)
    (un dt : String) (now : Nat) (u : String) :
    get_user_by_username (log_security_event db et sv ip ua un dt now) u =
      get_user_by_username db u := rfl

/-- C4 amended: when the write of the `FailedLoginAttempt` ledger record
fails, the error is caught inside `log_failed_attempt` (rollback, no
propagation), the attempt goes unlogged, and the authenticate call proceeds
to the very same outcome as with a working store. -/
theorem ledger_write_failure_swallowed (db : DB) (u p r : String) (ip ua : Option String)
    (uid : Option Nat) (now : Nat) :
    log_failed_attempt { db with storeFails := true } u ip ua r uid now =
      { db with storeFails := true } ∧
    (authenticate_user { db with storeFails := true } u p ip ua now).1 =
      (authenticate_user { db with storeFails := false } u p ip ua now).1 ∧
    (authenticate_user { db with storeFails := true } u p ip ua now).2.failed_attempts =
      db.failed_attempts := by
  refine ⟨log_failed_attempt_storeFails _ u ip ua r uid now rfl, ?_, ?_⟩
  · unfold authenticate_user
    simp only [check_ip_cooldown_set_storeFails, is_suspicious_set_storeFails]
    split
    next => rfl
    next =>
      by_cases hS : is_suspicious_activity db ip ua now = true
      · simp only [hS, eq_self_iff_true, if_true, get_user_log_security_event,
          get_user_set_storeFails]
        repeat' split
        all_goals simp [reset_login_attempts]
      · simp only [hS, Bool.false_eq_true, if_false, get_user_log_security_event,
          get_user_set_storeFails]
        repeat' split
        all_goals simp [reset_login_attempts]
  · unfold authenticate_user
    simp only [check_ip_cooldown_set_storeFails, is_suspicious_set_storeFails]
    split
    next =>
      rw [log_failed_attempt_storeFails _ u ip ua "IP_COOLDOWN_BLOCKED" none now rfl]
    next =>
      by_cases hS : is_suspicious_activity db ip ua now = true
      · simp only [hS, eq_self_iff_true, if_true, get_user_log_security_event,
          get_user_set_storeFails]
        repeat' split
        all_goals
          simp [increment_ip_ledger_storeFails, log_failed_attempt_storeFails,
            reset_login_attempts]
      · simp only [hS, Bool.false_eq_true, if_false, get_user_log_security_event,
          get_user_set_storeFails]
        repeat' split
        all_goals
          simp [increment_ip_ledger_storeFails, log_failed_attempt_storeFails,
            reset_login_attempts]

/-- The guard of the tracking functions is exactly non-usability. -/
theorem guard_eq_not_usable (ip : Option String) :
    (strFalsy ip || (ip == some "unknown")) = !usableIp ip := by
  cases ip with
  | none => rfl
  | some s =>
    simp only [strFalsy, usableIp]
    cases h1 : (s == "") <;> cases h2 : (s == "unknown") <;> simp_all

/-- Only a usable source address can be reported blocked. -/
theorem blocked_usable (db : DB) (ip : Option String) (now : Nat)
    (hb : (check_ip_cooldown db ip now).is_blocked = true) : usableIp ip = true := by
  unfold check_ip_cooldown ipCooldownStatus at hb
  rw [guard_eq_not_usable] at hb
  cases hu : usableIp ip with
  | true => rfl
  | false =>
    rw [hu] at hb
    simp at hb

/-- A failed ledger write appends exactly the one attempt row (the `UserLog`
side channel only fires with a `user_id`, which the auth flow never passes). -/
theorem log_failed_attempt_append (d : DB) (u : String) (ip ua : Option String)
    (r : String) (uid : Option Nat) (now : Nat) (hs : d.storeFails = false) :
    (log_failed_attempt d u ip ua r uid now).failed_attempts =
      d.failed_attempts ++
        [⟨pyLower u, ip, ua, now, r, uid, analyze_suspicious_attempt ua ip r⟩] := by
  unfold log_failed_attempt
  rw [hs]
  cases uid <;> rfl

/-- `log_failed_attempt` never touches the event table. -/
theorem log_failed_attempt_events (d : DB) (u : String) (ip ua : Option String)
    (r : String) (uid : Option Nat) (now : Nat) :
    (log_failed_attempt d u ip ua r uid now).security_events = d.security_events := by
  unfold log_failed_attempt
  split
  · rfl
  · cases uid <;> rfl

/-- `log_failed_attempt` preserves the fault flag. -/
theorem log_failed_attempt_storeFails_eq (d : DB) (u : String) (ip ua : Option String)
    (r : String) (uid : Option Nat) (now : Nat) :
    (log_failed_attempt d u ip ua r uid now).storeFails = d.storeFails := by
  unfold log_failed_attempt
  split
  · rfl
  · cases uid <;> rfl

/-- With a usable address and a working store, the tracking step grows the
ledger by exactly one row. -/
theorem increment_ip_adds_one (d : DB) (ip : Option String) (u r : String)
    (ua : Option String) (now : Nat) (husable : usableIp ip = true)
    (hs : d.storeFails = false) :
    (increment_ip_failed_attempts d ip u r ua now).failed_attempts.length =
      d.failed_attempts.length + 1 := by
  unfold increment_ip_failed_attempts
  rw [guard_eq_not_usable, husable]
  simp only [Bool.not_true, Bool.false_eq_true, if_false]
  split
  · simp [log_failed_attempt_append d u ip ua r none now hs]
  · simp [log_failed_attempt_append d u ip ua r none now hs]

/-- With an unusable address the tracking step is the identity. -/
theorem increment_ip_unusable (d : DB) (ip : Option String) (u r : String)
    (ua : Option String) (now : Nat) (husable : usableIp ip = false) :
    increment_ip_failed_attempts d ip u r ua now = d := by
  unfold increment_ip_failed_attempts
  rw [guard_eq_not_usable, husable]
  rfl

/-- The tracking step emits at most one security event. -/
theorem increment_ip_events_le (d : DB) (ip : Option String) (u r : String)
    (ua : Option String) (now : Nat) :
    (increment_ip_failed_attempts d ip u r ua now).security_events.length ≤
      d.security_events.length + 1 := by
  unfold increment_ip_failed_attempts
  split
  · omega
  · dsimp only
    split
    · simp [log_failed_attempt_events]
    · simp [log_failed_attempt_events]

/-- The tracking step preserves the fault flag. -/
theorem increment_ip_storeFails_eq (d : DB) (ip : Option String) (u r : String)
    (ua : Option String) (now : Nat) :
    (increment_ip_failed_attempts d ip u r ua now).storeFails = d.storeFails := by
  unfold increment_ip_failed_attempts
  split
  · rfl
  · dsimp only
    split
    · simp [log_failed_attempt_storeFails_eq]
    · simp [log_failed_attempt_storeFails_eq]

/-- Counterexample to C5 as stated: (a) a failing call with source address
`None` writes zero `FailedLoginAttempt` records, not one; (b) one call can
emit three SecurityEvents (`SUSPICIOUS_ACTIVITY`, `IP_COOLDOWN_TRIGGERED`
and `BRUTE_FORCE_ATTEMPT`), not at most one. -/
theorem side_effect_accounting_counterexample :
    (authenticate_user ⟨[], [], [], [], false⟩ "ghost" "pw" none
        (some "Mozilla/5.0 Browser") 0).1 = AuthOutcome.NoUser ∧
    (authenticate_user ⟨[], [], [], [], false⟩ "ghost" "pw" none
        (some "Mozilla/5.0 Browser") 0).2.failed_attempts.length = 0 ∧
    (authenticate_user nearLockDb "alice" "xx" (some "7.7.7.7")
        (some "abc") 200).2.security_events.length = 3 := by
  decide

/-- Ledger growth of one authenticate call: one row on failure with a usable
address, none otherwise (working store). -/
theorem auth_ledger_delta (db : DB) (u p : String) (ip ua : Option String) (now : Nat)
    (hs : db.storeFails = false) :
    (authenticate_user db u p ip ua now).2.failed_attempts.length =
      db.failed_attempts.length +
        (if isSuccessOutcome (authenticate_user db u p ip ua now).1 = true then 0
         else if usableIp ip = true then 1 else 0) := by
  cases hu : usableIp ip with
  | false =>
    simp only [authenticate_user]
    split
    next hb => exact absurd (blocked_usable db ip now hb) (by simp [hu])
    next =>
      repeat' split
      all_goals simp_all [increment_ip_unusable, isSuccessOutcome, reset_login_attempts]
  | true =>
    simp only [authenticate_user]
    split
    next hb =>
      simp [isSuccessOutcome,
        log_failed_attempt_append db u ip ua "IP_COOLDOWN_BLOCKED" none now hs]
    next =>
      repeat' split
      all_goals
        simp_all [increment_ip_adds_one, isSuccessOutcome, reset_login_attempts]

/-- One authenticate call emits at most three security events. -/
theorem auth_events_le (db : DB) (u p : String) (ip ua : Option String) (now : Nat) :
    (authenticate_user db u p ip ua now).2.security_events.length ≤
      db.security_events.length + 3 := by
  simp only [authenticate_user]
  split
  next => simp [log_failed_attempt_events]
  next =>
    repeat' split
    all_goals
      try simp only [log_security_event_events, log_user_action_events, updateUser_events,
        log_failed_attempt_events, List.length_append]
    all_goals
      first
      | (exact le_trans (increment_ip_events_le _ _ _ _ _ _)
          (by (try simp only [log_security_event_events, log_user_action_events, updateUser_events,
                List.length_append, List.length_cons, List.length_nil]) <;> omega))
      | (exact le_trans (Nat.add_le_add_right (increment_ip_events_le _ _ _ _ _ _) 1)
          (by (try simp only [log_security_event_events, log_user_action_events, updateUser_events,
                List.length_append, List.length_cons, List.length_nil]) <;> omega))
      | (simp [reset_login_attempts] <;> omega)
      | omega
      | simp

/-- C5 amended: with a working store, every failing authenticate call with a
usable source address writes exactly one `FailedLoginAttempt`; calls with an
unusable address write none; successful calls write none; and a single call
emits at most three SecurityEvents. -/
theorem side_effect_accounting (db : DB) (u p : String) (ip ua : Option String)
    (now : Nat) :
    (authenticate_user { db with storeFails := false } u p ip ua now).2.failed_attempts.length =
      db.failed_attempts.length +
        (if isSuccessOutcome
            (authenticate_user { db with storeFails := false } u p ip ua now).1 = true
         then 0 else if usableIp ip = true then 1 else 0) ∧
    (authenticate_user { db with storeFails := false } u p ip ua now).2.security_events.length ≤
      db.security_events.length + 3 := by
  constructor
  · have h := auth_ledger_delta { db with storeFails := false } u p ip ua now rfl
    simpa using h
  · have h := auth_events_le { db with storeFails := false } u p ip ua now
    simpa using h

/-- The windowed query result depends only on each row's address and
timestamp. -/
theorem ipQualifying_map_proj (L1 L2 : List FailedLoginAttempt) (s : String) (now : Nat)
    (h : L1.map ipTimeProj = L2.map ipTimeProj) :
    (ipQualifying L1 s now).map ipTimeProj = (ipQualifying L2 s now).map ipTimeProj := by
  induction L1 generalizing L2 with
  | nil =>
    have h2 : L2 = [] := by simpa using h.symm
    subst h2
    rfl
  | cons a l1 ih =>
    cases L2 with
    | nil => simp at h
    | cons b l2 =>
      simp only [List.map_cons, List.cons.injEq] at h
      obtain ⟨hab, hrest⟩ := h
      have hip : a.ip_address = b.ip_address := congrArg Prod.fst hab
      have ht : a.attempt_time = b.attempt_time := congrArg Prod.snd hab
      unfold ipQualifying
      simp only [List.filter_cons]
      rw [hip, ht]
      have ihq := ih l2 hrest
      unfold ipQualifying at ihq
      split
      · simp only [List.map_cons]
        rw [hab, ihq]
      · exact ihq

/-- The most recent timestamp depends only on each row's address and
timestamp. -/
theorem latestTime_eq_of_map_proj (l1 l2 : List FailedLoginAttempt)
    (h : l1.map ipTimeProj = l2.map ipTimeProj) : latestTime l1 = latestTime l2 := by
  induction l1 generalizing l2 with
  | nil =>
    have h2 : l2 = [] := by simpa using h.symm
    subst h2
    rfl
  | cons a t ih =>
    cases l2 with
    | nil => simp at h
    | cons b t2 =>
      simp only [List.map_cons, List.cons.injEq] at h
      obtain ⟨hab, hrest⟩ := h
      unfold latestTime
      simp only [List.foldr_cons]
      have ht : a.attempt_time = b.attempt_time := congrArg Prod.snd hab
      have iht := ih t2 hrest
      unfold latestTime at iht
      rw [ht, iht]

/-- The source-cooldown status is a pure function of the rows' addresses and
timestamps (usernames, reasons, agents, flags are irrelevant). -/
theorem ipCooldownStatus_congr (L1 L2 : List FailedLoginAttempt) (ip : Option String)
    (now : Nat) (h : L1.map ipTimeProj = L2.map ipTimeProj) :
    ipCooldownStatus L1 ip now = ipCooldownStatus L2 ip now := by
  cases ip with
  | none => rfl
  | some s =>
    have hq := ipQualifying_map_proj L1 L2 s now h
    have hlen : (ipQualifying L1 s now).length = (ipQualifying L2 s now).length := by
      rw [← List.length_map (ipQualifying L1 s now) ipTimeProj, hq, List.length_map]
    have hlat := latestTime_eq_of_map_proj _ _ hq
    simp only [ipCooldownStatus]
    rw [hlen, hlat]

/-- The exact ledger row the tracking step appends (or none, for an unusable
address), on a working store. -/
theorem increment_ip_ledger_eq (d : DB) (ip : Option String) (u r : String)
    (ua : Option String) (now : Nat) (hs : d.storeFails = false) :
    (increment_ip_failed_attempts d ip u r ua now).failed_attempts =
      d.failed_attempts ++
        (if usableIp ip = true then
          [⟨pyLower u, ip, ua, now, r, none, analyze_suspicious_attempt ua ip r⟩]
         else []) := by
  cases hu : usableIp ip with
  | false =>
    rw [increment_ip_unusable d ip u r ua now hu]
    simp
  | true =>
    unfold increment_ip_failed_attempts
    rw [guard_eq_not_usable, hu]
    simp only [Bool.not_true, Bool.false_eq_true, if_false]
    split
    · simp [log_failed_attempt_append d u ip ua r none now hs]
    · simp [log_failed_attempt_append d u ip ua r none now hs]

/-- The advisory suspicious-event step does not touch the ledger. -/
theorem suspicious_branch_failed (db : DB) (ip ua : Option String) (u : String) (now : Nat) :
    (if is_suspicious_activity db ip ua now = true then
      log_security_event db "SUSPICIOUS_ACTIVITY" "HIGH" ip ua u
        "Suspicious login pattern detected" now
     else db).failed_attempts = db.failed_attempts := by
  split <;> simp

/-- The advisory suspicious-event step preserves the fault flag. -/
theorem suspicious_branch_storeFails (db : DB) (ip ua : Option String) (u : String) (now : Nat) :
    (if is_suspicious_activity db ip ua now = true then
      log_security_event db "SUSPICIOUS_ACTIVITY" "HIGH" ip ua u
        "Suspicious login pattern detected" now
     else db).storeFails = db.storeFails := by
  split <;> simp

/-- The unknown-username branch of `authenticate_user`, as an equation. -/
theorem auth_unknown_user_eq (db : DB) (u p : String) (ip ua : Option String) (now : Nat)
    (hnb : (check_ip_cooldown db ip now).is_blocked = false)
    (hget : get_user_by_username db u = none) :
    authenticate_user db u p ip ua now =
      (AuthOutcome.NoUser,
        increment_ip_failed_attempts
          (if is_suspicious_activity db ip ua now = true then
            log_security_event db "SUSPICIOUS_ACTIVITY" "HIGH" ip ua u
              "Suspicious login pattern detected" now
          else db) ip u "INVALID_USERNAME" ua now) := by
  simp only [authenticate_user, hnb, Bool.false_eq_true, if_false]
  have hg : get_user_by_username
      (if is_suspicious_activity db ip ua now = true then
        log_security_event db "SUSPICIOUS_ACTIVITY" "HIGH" ip ua u
          "Suspicious login pattern detected" now
      else db) u = none := by
    split
    · rw [get_user_log_security_event]
      exact hget
    · exact hget
  rw [hg]

/-- The wrong-password branch of `authenticate_user`: outcome `None` and the
exact ledger row it appends. -/
theorem auth_wrong_password_eq (db : DB) (u p : String) (ip ua : Option String)
    (now : Nat) (user : User)
    (hnb : (check_ip_cooldown db ip now).is_blocked = false)
    (hget : get_user_by_username db u = some user)
    (hlock : (match user.cooldown_until with
      | some cu => decide (now < cu)
      | none => false) = false)
    (hpw : verify_password p user.password_hash = false)
    (hs : db.storeFails = false) :
    (authenticate_user db u p ip ua now).1 = AuthOutcome.NoUser ∧
    (authenticate_user db u p ip ua now).2.failed_attempts =
      db.failed_attempts ++
        (if usableIp ip = true then
          [⟨pyLower u, ip, ua, now, "INVALID_PASSWORD", none,
            analyze_suspicious_attempt ua ip "INVALID_PASSWORD"⟩]
         else []) := by
  simp only [authenticate_user, hnb, Bool.false_eq_true, if_false]
  have hg : get_user_by_username
      (if is_suspicious_activity db ip ua now = true then
        log_security_event db "SUSPICIOUS_ACTIVITY" "HIGH" ip ua u
          "Suspicious login pattern detected" now
      else db) u = some user := by
    split
    · rw [get_user_log_security_event]
      exact hget
    · exact hget
  rw [hg]
  dsimp only
  rw [hlock, hpw]
  simp only [Bool.false_eq_true, if_false, Bool.not_false, if_true]
  have hsf1 : (if is_suspicious_activity db ip ua now = true then
      log_security_event db "SUSPICIOUS_ACTIVITY" "HIGH" ip ua u
        "Suspicious login pattern detected" now
    else db).storeFails = false := by
    rw [suspicious_branch_storeFails]
    exact hs
  simp only [hsf1, Bool.false_eq_true, if_false]
  constructor
  · trivial
  · have hstore : ∀ u1 : User,
        (updateUser (if is_suspicious_activity db ip ua now = true then
          log_security_event db "SUSPICIOUS_ACTIVITY" "HIGH" ip ua u
            "Suspicious login pattern detected" now
        else db) u1).storeFails = false := by
      intro u1
      rw [updateUser_storeFails, suspicious_branch_storeFails]
      exact hs
    split
    · simp only [log_security_event_failed_attempts, log_user_action_failed_attempts,
        updateUser_failed_attempts]
      rw [increment_ip_ledger_eq _ ip u "INVALID_PASSWORD" ua now (hstore _)]
      rw [updateUser_failed_attempts, suspicious_branch_failed]
    · rw [increment_ip_ledger_eq _ ip u "INVALID_PASSWORD" ua now (hstore _)]
      rw [updateUser_failed_attempts, suspicious_branch_failed]

/-- A `None` result of `authenticate_user` makes the handler answer with the
failure response computed from the post-call ledger. -/
theorem login_noUser (db : DB) (u p : String) (ip ua : Option String) (now : Nat)
    (h1 : (authenticate_user db u p ip ua now).1 = AuthOutcome.NoUser) :
    (login db u p ip ua now).1 =
      loginFailureResponse (authenticate_user db u p ip ua now).2.failed_attempts ip now := by
  unfold login
  rcases hr : authenticate_user db u p ip ua now with ⟨out, db1⟩
  rw [hr] at h1
  dsimp at h1
  subst h1
  rfl

/-- C6: indistinguishable rejection. For the same source-address history and
instant, a login failing on an unknown username and a login failing on a
wrong password (existing, unlocked account) produce literally the same
response value — same status, byte-identical detail body — and, when the
source is not cooling down after the attempt is recorded, that common
response is the 401. -/
theorem indistinguishable_rejection (dbA dbB : DB) (uA uB pA pB : String)
    (ip ua : Option String) (now : Nat) (user : User)
    (hled : dbA.failed_attempts = dbB.failed_attempts)
    (hsA : dbA.storeFails = false) (hsB : dbB.storeFails = false)
    (hnb : (check_ip_cooldown dbA ip now).is_blocked = false)
    (hgetA : get_user_by_username dbA uA = none)
    (hgetB : get_user_by_username dbB uB = some user)
    (hlock : (match user.cooldown_until with
      | some cu => decide (now < cu)
      | none => false) = false)
    (hpw : verify_password pB user.password_hash = false) :
    (login dbA uA pA ip ua now).1 = (login dbB uB pB ip ua now).1 ∧
    ((ipCooldownStatus (authenticate_user dbA uA pA ip ua now).2.failed_attempts
        ip now).is_blocked = false →
      loginStatus (login dbA uA pA ip ua now).1 = 401) := by
  have hnbB : (check_ip_cooldown dbB ip now).is_blocked = false := by
    unfold check_ip_cooldown at hnb ⊢
    rw [← hled]
    exact hnb
  have eA := auth_unknown_user_eq dbA uA pA ip ua now hnb hgetA
  have eB := auth_wrong_password_eq dbB uB pB ip ua now user hnbB hgetB hlock hpw hsB
  have eA2 : (authenticate_user dbA uA pA ip ua now).2.failed_attempts =
      dbA.failed_attempts ++
        (if usableIp ip = true then
          [⟨pyLower uA, ip, ua, now, "INVALID_USERNAME", none,
            analyze_suspicious_attempt ua ip "INVALID_USERNAME"⟩]
         else []) := by
    rw [eA]
    dsimp only
    rw [increment_ip_ledger_eq _ ip uA "INVALID_USERNAME" ua now
      (by rw [suspicious_branch_storeFails]; exact hsA)]
    rw [suspicious_branch_failed]
  have lA := login_noUser dbA uA pA ip ua now (by rw [eA])
  have lB := login_noUser dbB uB pB ip ua now eB.1
  have hmap : ((authenticate_user dbA uA pA ip ua now).2.failed_attempts).map ipTimeProj =
      ((authenticate_user dbB uB pB ip ua now).2.failed_attempts).map ipTimeProj := by
    rw [eA2, eB.2, hled]
    cases hu : usableIp ip <;> simp [ipTimeProj]
  constructor
  · rw [lA, lB]
    unfold loginFailureResponse
    rw [ipCooldownStatus_congr _ _ ip now hmap]
  · intro hnb2
    rw [lA]
    simp [loginFailureResponse, hnb2, loginStatus]

/-- Witness for C6: an unknown-username failure against an empty user table
and a wrong-password failure against bob's account, same (empty) source
history, produce identical responses, and the common status is 401. -/
theorem indistinguishable_rejection_witness :
    get_user_by_username ⟨[], [], [], [], false⟩ "ghost" = none ∧
    get_user_by_username ⟨[⟨1, "bob", get_password_hash "pw", 0, none, 0, 0⟩], [], [], [], false⟩
      "bob" = some ⟨1, "bob", get_password_hash "pw", 0, none, 0, 0⟩ ∧
    verify_password "wrong" (get_password_hash "pw") = false ∧
    ((login ⟨[], [], [], [], false⟩ "ghost" "x" (some "2.2.2.2")
        (some "Mozilla/5.0 Browser") 50).1 =
      (login ⟨[⟨1, "bob", get_password_hash "pw", 0, none, 0, 0⟩], [], [], [], false⟩
        "bob" "wrong" (some "2.2.2.2") (some "Mozilla/5.0 Browser") 50).1 ∧
    ((ipCooldownStatus (authenticate_user ⟨[], [], [], [], false⟩ "ghost" "x"
        (some "2.2.2.2") (some "Mozilla/5.0 Browser") 50).2.failed_attempts
        (some "2.2.2.2") 50).is_blocked = false →
      loginStatus (login ⟨[], [], [], [], false⟩ "ghost" "x" (some "2.2.2.2")
        (some "Mozilla/5.0 Browser") 50).1 = 401)) :=
  ⟨by decide, by decide, by decide,
   indistinguishable_rejection ⟨[], [], [], [], false⟩
     ⟨[⟨1, "bob", get_password_hash "pw", 0, none, 0, 0⟩], [], [], [], false⟩
     "ghost" "bob" "x" "wrong" (some "2.2.2.2") (some "Mozilla/5.0 Browser") 50
     ⟨1, "bob", get_password_hash "pw", 0, none, 0, 0⟩
     rfl rfl rfl (by decide) (by decide) (by decide) (by decide) (by decide)⟩

/-- Counterexample to C2 as stated: alice is locked at count 5 with the
expiry long past; one wrong-password attempt is processed from the stale
counter 5, not from `ACTIVE(0)` — the counter jumps to 6 and the account is
immediately re-locked — and at the moment `locked_until` is set the counter
is 6, not 0. -/
theorem failed_count_reset_counterexample :
    (authenticate_user expiredLockDb "alice" "xx" none none 2000).2.users =
      [⟨1, "alice", get_password_hash "pw", 6, some (2000 + COOLDOWN_MINUTES * 60), 0, 0⟩] ∧
    ¬((authenticate_user expiredLockDb "alice" "xx" none none 2000).2.users =
      [⟨1, "alice", get_password_hash "pw", 1, none, 0, 0⟩]) := by
  decide

/-- C2 amended: any successful authentication returns the account with
`failed_count = 0` and `locked_until = None`, regardless of prior state; but
setting `locked_until` does not reset the counter, and an attempt arriving
after `locked_until` has passed is processed from the pre-lockout counter
value — a wrong password increments it (immediately re-locking once the
threshold stays reached) and the stale expiry is otherwise left in place. -/
theorem failed_count_reset_semantics :
    (∀ (db : DB) (u p : String) (ip ua : Option String) (now : Nat) (usr : User) (db' : DB),
      authenticate_user db u p ip ua now = (AuthOutcome.Success usr, db') →
      usr.login_attempts = 0 ∧ usr.cooldown_until = none) ∧
    (∀ (c t now : Nat), t ≤ now →
      (authenticate_user ⟨[⟨1, "alice", get_password_hash "pw", c, some t, 0, 0⟩],
          [], [], [], false⟩ "alice" "xx" none none now).2.users =
        [⟨1, "alice", get_password_hash "pw", c + 1,
          (if MAX_LOGIN_ATTEMPTS ≤ c + 1 then some (now + COOLDOWN_MINUTES * 60) else some t),
          0, 0⟩]) := by
  constructor
  · intro db u p ip ua now usr db' h
    simp only [authenticate_user] at h
    repeat' split at h
    all_goals simp_all [Prod.mk.injEq, reset_login_attempts]
    all_goals (obtain ⟨h1, h2⟩ := h; rw [← h1]; exact ⟨rfl, rfl⟩)
  · intro c t now hexp
    have hchk : (check_ip_cooldown
        ⟨[⟨1, "alice", get_password_hash "pw", c, some t, 0, 0⟩], [], [], [], false⟩
        none now).is_blocked = false := rfl
    have hfind : get_user_by_username
        ⟨[⟨1, "alice", get_password_hash "pw", c, some t, 0, 0⟩], [], [], [], false⟩
        "alice" = some ⟨1, "alice", get_password_hash "pw", c, some t, 0, 0⟩ := rfl
    have hsus : is_suspicious_activity
        ⟨[⟨1, "alice", get_password_hash "pw", c, some t, 0, 0⟩], [], [], [], false⟩
        none none now = false := rfl
    have hlock : decide (now < t) = false := by
      simp [Nat.not_lt.mpr hexp]
    have hpw : verify_password "xx" (get_password_hash "pw") = false := by decide
    simp only [authenticate_user, hchk, hsus, Bool.false_eq_true, if_false, hfind]
    rw [hlock, hpw]
    simp only [Bool.false_eq_true, if_false, Bool.not_false, if_true]
    rw [increment_ip_unusable _ none "alice" "INVALID_PASSWORD" none now rfl]
    split
    · simp [updateUser]
    · simp [updateUser]

/-- Witness for C2 (amended): bob logs in successfully from counter 3 and
comes back reset; alice's expired lock at count 5 plus one wrong password
yields counter 6 and a fresh lock. -/
theorem failed_count_reset_semantics_witness :
    ((⟨1, "bob", get_password_hash "pw", 0, none, 0, 50⟩ : User).login_attempts = 0 ∧
      (⟨1, "bob", get_password_hash "pw", 0, none, 0, 50⟩ : User).cooldown_until = none) ∧
    ((1000 : Nat) ≤ 2000 ∧
      (authenticate_user ⟨[⟨1, "alice", get_password_hash "pw", 5, some 1000, 0, 0⟩],
          [], [], [], false⟩ "alice" "xx" none none 2000).2.users =
        [⟨1, "alice", get_password_hash "pw", 5 + 1,
          (if MAX_LOGIN_ATTEMPTS ≤ 5 + 1 then some (2000 + COOLDOWN_MINUTES * 60)
           else some 1000), 0, 0⟩]) :=
  ⟨failed_count_reset_semantics.1
      ⟨[⟨1, "bob", get_password_hash "pw", 3, none, 0, 0⟩], [], [], [], false⟩
      "bob" "pw" none none 50
      ⟨1, "bob", get_password_hash "pw", 0, none, 0, 50⟩
      ⟨[⟨1, "bob", get_password_hash "pw", 0, none, 0, 50⟩], [], [],
        [⟨1, none, "LOGIN_SUCCESS", none, none⟩], false⟩
      (by decide),
   by decide,
   failed_count_reset_semantics.2 5 1000 2000 (by decide)⟩

/-- A source with at most nine recorded attempts is never reported blocked. -/
theorem not_blocked_of_total_le (db : DB) (ip : Option String) (now : Nat)
    (h : ipTotal db.failed_attempts ip ≤ 9) :
    (check_ip_cooldown db ip now).is_blocked = false := by
  cases ip with
  | none => cases hb : (check_ip_cooldown db none now).is_blocked with
    | false => rfl
    | true =>
      exfalso
      unfold check_ip_cooldown ipCooldownStatus at hb
      simp [strFalsy] at hb
  | some s =>
    unfold check_ip_cooldown ipCooldownStatus
    split
    · rfl
    · dsimp only
      have hle := ipQualifying_length_le db.failed_attempts s now
      have hmax : MAX_IP_ATTEMPTS = 10 := rfl
      split
      next hlen =>
        split
        · exfalso
          unfold ipTotal at h
          unfold ipTotal at hle
          omega
        · rfl
      next => rfl

/-- `log_failed_attempt` never touches the users table. -/
theorem log_failed_attempt_users (d : DB) (u : String) (ip ua : Option String)
    (r : String) (uid : Option Nat) (now : Nat) :
    (log_failed_attempt d u ip ua r uid now).users = d.users := by
  unfold log_failed_attempt
  split
  · rfl
  · cases uid <;> rfl

/-- The tracking step never touches the users table. -/
theorem increment_ip_users (d : DB) (ip : Option String) (u r : String)
    (ua : Option String) (now : Nat) :
    (increment_ip_failed_attempts d ip u r ua now).users = d.users := by
  unfold increment_ip_failed_attempts
  split
  · rfl
  · dsimp only
    split
    · simp [log_failed_attempt_users]
    · simp [log_failed_attempt_users]

/-- The advisory suspicious-event step never touches the users table. -/
theorem suspicious_branch_users (db : DB) (ip ua : Option String) (u : String) (now : Nat) :
    (if is_suspicious_activity db ip ua now = true then
      log_security_event db "SUSPICIOUS_ACTIVITY" "HIGH" ip ua u
        "Suspicious login pattern detected" now
     else db).users = db.users := by
  split <;> simp

/-- Per-address totals add over ledger concatenation. -/
theorem ipTotal_append (L M : List FailedLoginAttempt) (ip : Option String) :
    ipTotal (L ++ M) ip = ipTotal L ip + ipTotal M ip := by
  cases ip with
  | none => rfl
  | some s => simp [ipTotal, List.filter_append]

/-- The tracking step grows any per-address total by at most one. -/
theorem increment_ip_total_le (d : DB) (ip jp : Option String) (u r : String)
    (ua : Option String) (now : Nat) (hs : d.storeFails = false) :
    ipTotal (increment_ip_failed_attempts d ip u r ua now).failed_attempts jp ≤
      ipTotal d.failed_attempts jp + 1 := by
  rw [increment_ip_ledger_eq d ip u r ua now hs, ipTotal_append]
  have : ∀ M : List FailedLoginAttempt, M.length ≤ 1 → ipTotal M jp ≤ 1 := by
    intro M hM
    cases jp with
    | none => simp [ipTotal]
    | some s =>
      unfold ipTotal
      calc (M.filter fun a => a.ip_address == some s).length ≤ M.length :=
            List.length_filter_le _ _
        _ ≤ 1 := hM
  have h2 := this (if usableIp ip = true then
    [⟨pyLower u, ip, ua, now, r, none, analyze_suspicious_attempt ua ip r⟩] else [])
    (by split <;> simp)
  omega

/-- Appending one event moves the brute-force tally by its type bit. -/
theorem bruteForceCount_append (E : List SecurityEvent) (e : SecurityEvent) :
    bruteForceCount (E ++ [e]) =
      bruteForceCount E + (if e.event_type == "BRUTE_FORCE_ATTEMPT" then 1 else 0) := by
  simp only [bruteForceCount, List.filter_append]
  split
  next h => simp [List.filter_cons, h]
  next h => simp [List.filter_cons, h]

/-- The tracking step never emits a brute-force event. -/
theorem increment_ip_bruteForce (d : DB) (ip : Option String) (u r : String)
    (ua : Option String) (now : Nat) :
    bruteForceCount (increment_ip_failed_attempts d ip u r ua now).security_events =
      bruteForceCount d.security_events := by
  unfold increment_ip_failed_attempts
  split
  · rfl
  · dsimp only
    split
    · rw [log_security_event_events, bruteForceCount_append]
      have : (("IP_COOLDOWN_TRIGGERED" : String) == "BRUTE_FORCE_ATTEMPT") = false := by decide
      rw [this]
      simp only [Bool.false_eq_true, if_false]
      unfold log_failed_attempt
      split
      · rfl
      · cases' h : (none : Option Nat) with _
        · rfl
        · rfl
    · unfold log_failed_attempt
      split
      · rfl
      · rfl

/-- The advisory suspicious-event step never contributes a brute-force event. -/
theorem suspicious_branch_bruteForce (db : DB) (ip ua : Option String) (u : String)
    (now : Nat) :
    bruteForceCount (if is_suspicious_activity db ip ua now = true then
      log_security_event db "SUSPICIOUS_ACTIVITY" "HIGH" ip ua u
        "Suspicious login pattern detected" now
     else db).security_events = bruteForceCount db.security_events := by
  split
  · rw [log_security_event_events, bruteForceCount_append]
    have h : (("SUSPICIOUS_ACTIVITY" : String) == "BRUTE_FORCE_ATTEMPT") = false := by decide
    rw [h]
    simp
  · rfl

/-- One wrong-password call against alice's unlocked account at counter `c`:
outcome `None`, counter `c + 1`, a lock and one brute-force event exactly
when the threshold is reached, and at most one new ledger row for the source. -/
theorem auth_wrong_step (c : Nat) (L : List FailedLoginAttempt) (E : List SecurityEvent)
    (UL : List UserLog) (ip ua : Option String) (t : Nat)
    (hip : ipTotal L ip ≤ 9) :
    ∃ db' : DB,
      authenticate_user ⟨[⟨1, "alice", get_password_hash "pw", c, none, 0, 0⟩], L, E, UL, false⟩
        "alice" "xx" ip ua t = (AuthOutcome.NoUser, db') ∧
      db'.users = [⟨1, "alice", get_password_hash "pw", c + 1,
        (if MAX_LOGIN_ATTEMPTS ≤ c + 1 then some (t + COOLDOWN_MINUTES * 60) else none), 0, 0⟩] ∧
      db'.storeFails = false ∧
      ipTotal db'.failed_attempts ip ≤ ipTotal L ip + 1 ∧
      bruteForceCount db'.security_events =
        bruteForceCount E + (if MAX_LOGIN_ATTEMPTS ≤ c + 1 then 1 else 0) := by
  have hnb : (check_ip_cooldown
      ⟨[⟨1, "alice", get_password_hash "pw", c, none, 0, 0⟩], L, E, UL, false⟩
      ip t).is_blocked = false := not_blocked_of_total_le _ ip t hip
  simp only [authenticate_user, hnb, Bool.false_eq_true, if_false]
  have hg : get_user_by_username
      (if is_suspicious_activity
          ⟨[⟨1, "alice", get_password_hash "pw", c, none, 0, 0⟩], L, E, UL, false⟩ ip ua t = true
        then log_security_event
          ⟨[⟨1, "alice", get_password_hash "pw", c, none, 0, 0⟩], L, E, UL, false⟩
          "SUSPICIOUS_ACTIVITY" "HIGH" ip ua "alice" "Suspicious login pattern detected" t
        else ⟨[⟨1, "alice", get_password_hash "pw", c, none, 0, 0⟩], L, E, UL, false⟩)
      "alice" = some ⟨1, "alice", get_password_hash "pw", c, none, 0, 0⟩ := by
    split
    · rw [get_user_log_security_event]
      rfl
    · rfl
  rw [hg]
  have hpw : (!verify_password "xx" (get_password_hash "pw")) = true := by decide
  dsimp only
  rw [hpw]
  simp only [eq_self_iff_true, if_true, Bool.false_eq_true, if_false]
  have hsf1 : (if is_suspicious_activity
      ⟨[⟨1, "alice", get_password_hash "pw", c, none, 0, 0⟩], L, E, UL, false⟩ ip ua t = true
    then log_security_event
      ⟨[⟨1, "alice", get_password_hash "pw", c, none, 0, 0⟩], L, E, UL, false⟩
      "SUSPICIOUS_ACTIVITY" "HIGH" ip ua "alice" "Suspicious login pattern detected" t
    else ⟨[⟨1, "alice", get_password_hash "pw", c, none, 0, 0⟩], L, E, UL,
      false⟩).storeFails = false := by
    rw [suspicious_branch_storeFails]
  simp only [hsf1, Bool.false_eq_true, if_false]
  refine ⟨_, rfl, ?_, ?_, ?_, ?_⟩
  · split
    next h => simp [updateUser, increment_ip_users, suspicious_branch_users, h]
    next h => simp [updateUser, increment_ip_users, suspicious_branch_users, h]
  · split
    next =>
      simp [increment_ip_storeFails_eq, suspicious_branch_storeFails]
    next =>
      simp [increment_ip_storeFails_eq, suspicious_branch_storeFails]
  · split
    all_goals
      try simp only [log_security_event_failed_attempts, log_user_action_failed_attempts,
        updateUser_failed_attempts]
    all_goals
      refine le_trans (increment_ip_total_le _ ip ip "alice" "INVALID_PASSWORD" ua t
        (by simp [suspicious_branch_storeFails])) ?_
    all_goals
      simp [suspicious_branch_failed]
  · split
    next h =>
      rw [log_security_event_events, bruteForceCount_append]
      have hbf : (("BRUTE_FORCE_ATTEMPT" : String) == "BRUTE_FORCE_ATTEMPT") = true := by decide
      rw [hbf]
      simp only [eq_self_iff_true, if_true, log_user_action_events, updateUser_events]
      rw [increment_ip_bruteForce]
      simp only [updateUser_events]
      rw [suspicious_branch_bruteForce]
    next h =>
      rw [increment_ip_bruteForce]
      simp only [updateUser_events]
      rw [suspicious_branch_bruteForce]
      simp [h]

/-- Invariant for iterated wrong-password calls: starting unlocked at counter
`c`, a run of calls adds its length to the counter, locks (at the last call's
instant) and emits one brute-force event exactly when the counter reaches the
threshold, provided the run stays below the source threshold. -/
theorem wrongCalls_aux (ts : List Nat) (c : Nat) (L : List FailedLoginAttempt)
    (E : List SecurityEvent) (UL : List UserLog) (ip ua : Option String)
    (hc : c + ts.length ≤ MAX_LOGIN_ATTEMPTS)
    (hip : ipTotal L ip + ts.length ≤ 9) :
    (wrongCalls ⟨[⟨1, "alice", get_password_hash "pw", c, none, 0, 0⟩], L, E, UL, false⟩
        "alice" "xx" ip ua ts).users =
      [⟨1, "alice", get_password_hash "pw", c + ts.length,
        (if c + ts.length = MAX_LOGIN_ATTEMPTS ∧ ts ≠ [] then
          some (ts.getLastD 0 + COOLDOWN_MINUTES * 60)
         else none), 0, 0⟩] ∧
    bruteForceCount (wrongCalls ⟨[⟨1, "alice", get_password_hash "pw", c, none, 0, 0⟩],
        L, E, UL, false⟩ "alice" "xx" ip ua ts).security_events =
      bruteForceCount E +
        (if c + ts.length = MAX_LOGIN_ATTEMPTS ∧ ts ≠ [] then 1 else 0) := by
  induction ts generalizing c L E UL with
  | nil => simp [wrongCalls]
  | cons t ts ih =>
    have hM : MAX_LOGIN_ATTEMPTS = 5 := rfl
    obtain ⟨db', heq, husers, hsf, hipt, hbf⟩ :=
      auth_wrong_step c L E UL ip ua t
        (by simp only [List.length_cons] at hip; omega)
    simp only [wrongCalls]
    rw [heq]
    cases ts with
    | nil =>
      simp only [wrongCalls]
      by_cases h5 : c + 1 = MAX_LOGIN_ATTEMPTS
      · have hge : MAX_LOGIN_ATTEMPTS ≤ c + 1 := le_of_eq h5.symm
        constructor
        · rw [husers]
          simp [hge, h5]
        · rw [hbf]
          simp [hge, h5]
      · have hle : ¬ (MAX_LOGIN_ATTEMPTS ≤ c + 1) := by
          rw [hM] at h5 ⊢
          simp only [List.length_cons, hM] at hc
          omega
        constructor
        · rw [husers]
          simp [hle, h5]
        · rw [hbf]
          simp [hle, h5]
    | cons y ys =>
      have hle : ¬ (MAX_LOGIN_ATTEMPTS ≤ c + 1) := by
        rw [hM]
        rw [hM] at hc
        simp only [List.length_cons] at hc
        omega
      simp only [hle, if_false] at husers hbf
      rcases db' with ⟨us, fa, se, ul, sf⟩
      dsimp only at husers hsf hipt hbf
      subst husers
      subst hsf
      have ihres := ih (c + 1) fa se ul
        (by simp only [List.length_cons] at hc ⊢; omega)
        (by
          simp only [List.length_cons] at hip ⊢
          omega)
      constructor
      · rw [ihres.1]
        simp only [List.length_cons, ne_eq, List.cons_ne_nil, not_false_eq_true, and_true]
        have h1 : c + 1 + (ys.length + 1) = c + (ys.length + 1 + 1) := by omega
        rw [h1]
        rfl
      · rw [ihres.2, hbf]
        simp only [List.length_cons, ne_eq, List.cons_ne_nil, not_false_eq_true, and_true]
        have h1 : c + 1 + (ys.length + 1) = c + (ys.length + 1 + 1) := by omega
        rw [h1]
        simp

/-- C3: monotonic lockout. From a fresh account (counter 0, unlocked), any
run of `k ≤ MAX_LOGIN_ATTEMPTS` consecutive wrong-password calls (the source
staying below its own threshold) leaves the account at counter `k`, still
unlocked for `k < MAX_LOGIN_ATTEMPTS`; at `k = MAX_LOGIN_ATTEMPTS` the
account is locked until the last call's instant plus 15 minutes, and exactly
then one `BRUTE_FORCE_ATTEMPT` event (the spec's `BRUTE_FORCE_ACCOUNT`) is
emitted. -/
theorem account_lockout_monotonic (ts : List Nat) (L : List FailedLoginAttempt)
    (E : List SecurityEvent) (UL : List UserLog) (ip ua : Option String)
    (hlen : ts.length ≤ MAX_LOGIN_ATTEMPTS)
    (hip : ipTotal L ip + ts.length ≤ 9) :
    (wrongCalls ⟨[⟨1, "alice", get_password_hash "pw", 0, none, 0, 0⟩], L, E, UL, false⟩
        "alice" "xx" ip ua ts).users =
      [⟨1, "alice", get_password_hash "pw", ts.length,
        (if ts.length = MAX_LOGIN_ATTEMPTS then
          some (ts.getLastD 0 + COOLDOWN_MINUTES * 60)
         else none), 0, 0⟩] ∧
    bruteForceCount (wrongCalls ⟨[⟨1, "alice", get_password_hash "pw", 0, none, 0, 0⟩],
        L, E, UL, false⟩ "alice" "xx" ip ua ts).security_events =
      bruteForceCount E + (if ts.length = MAX_LOGIN_ATTEMPTS then 1 else 0) := by
  have hM : MAX_LOGIN_ATTEMPTS = 5 := rfl
  have h := wrongCalls_aux ts 0 L E UL ip ua (by simpa using hlen) hip
  simp only [Nat.zero_add] at h
  have hcond : (ts.length = MAX_LOGIN_ATTEMPTS ∧ ts ≠ []) = (ts.length = MAX_LOGIN_ATTEMPTS) := by
    apply propext
    constructor
    · exact fun hx => hx.1
    · intro h1
      refine ⟨h1, ?_⟩
      intro hnil
      rw [hnil, hM] at h1
      simp at h1
  simp only [hcond] at h
  exact h

/-- Witness for C3: three wrong passwords leave alice `ACTIVE(3)`, no
brute-force event; five wrong passwords lock her until second `50 + 900` and
emit exactly one brute-force event. -/
theorem account_lockout_monotonic_witness :
    (([10, 20, 30] : List Nat).length ≤ MAX_LOGIN_ATTEMPTS ∧
      (wrongCalls ⟨[⟨1, "alice", get_password_hash "pw", 0, none, 0, 0⟩], [], [], [], false⟩
          "alice" "xx" (some "3.3.3.3") (some "Mozilla/5.0 Browser") [10, 20, 30]).users =
        [⟨1, "alice", get_password_hash "pw", ([10, 20, 30] : List Nat).length,
          (if ([10, 20, 30] : List Nat).length = MAX_LOGIN_ATTEMPTS then
            some (([10, 20, 30] : List Nat).getLastD 0 + COOLDOWN_MINUTES * 60)
           else none), 0, 0⟩] ∧
      bruteForceCount (wrongCalls
          ⟨[⟨1, "alice", get_password_hash "pw", 0, none, 0, 0⟩], [], [], [], false⟩
          "alice" "xx" (some "3.3.3.3") (some "Mozilla/5.0 Browser")
          [10, 20, 30]).security_events =
        bruteForceCount [] +
          (if ([10, 20, 30] : List Nat).length = MAX_LOGIN_ATTEMPTS then 1 else 0)) ∧
    ((wrongCalls ⟨[⟨1, "alice", get_password_hash "pw", 0, none, 0, 0⟩], [], [], [], false⟩
          "alice" "xx" (some "3.3.3.3") (some "Mozilla/5.0 Browser")
          [10, 20, 30, 40, 50]).users =
        [⟨1, "alice", get_password_hash "pw", ([10, 20, 30, 40, 50] : List Nat).length,
          (if ([10, 20, 30, 40, 50] : List Nat).length = MAX_LOGIN_ATTEMPTS then
            some (([10, 20, 30, 40, 50] : List Nat).getLastD 0 + COOLDOWN_MINUTES * 60)
           else none), 0, 0⟩] ∧
      bruteForceCount (wrongCalls
          ⟨[⟨1, "alice", get_password_hash "pw", 0, none, 0, 0⟩], [], [], [], false⟩
          "alice" "xx" (some "3.3.3.3") (some "Mozilla/5.0 Browser")
          [10, 20, 30, 40, 50]).security_events =
        bruteForceCount [] +
          (if ([10, 20, 30, 40, 50] : List Nat).length = MAX_LOGIN_ATTEMPTS then 1 else 0)) :=
  ⟨⟨by decide,
    account_lockout_monotonic [10, 20, 30] [] [] [] (some "3.3.3.3")
      (some "Mozilla/5.0 Browser") (by decide) (by decide)⟩,
   account_lockout_monotonic [10, 20, 30, 40, 50] [] [] [] (some "3.3.3.3")
     (some "Mozilla/5.0 Browser") (by decide) (by decide)⟩
